import Mathlib

/-!
Shallow embedding of the signal-emulation process-termination engine of
`src/kill.rs` (the Windows port of the Unix `kill` command in the winix
repository).

Modelling conventions:
* Machine integers are `Nat`/`Int`; Rust's `str::parse::<uN>` is modelled by
  `rust_parse_u32` / `rust_parse_u64` (optional leading `+`, digits only,
  range check), `parse::<i32>` by `rust_parse_i32`.
* All interaction with the operating system is captured by an explicit
  environment `Env`: the two process snapshots the code can take (one during
  the initial kill pass, one during timeout re-resolution), process liveness
  before and after the timeout wait, and the outcome every Win32 primitive
  would report (`OpenProcess`/`TerminateProcess` error codes,
  `GenerateConsoleCtrlEvent` error codes, `EnumWindows` results).
* Every function that touches a process returns, besides its
  `Result<(), String>` (here `Except String Unit`), the list of externally
  visible side effects it performs, in order (`Event`): a `TerminateProcess`
  call, a console control event, a window-close pass, or a timed sleep.
  `println!` logging is not an `Event`.
* Error message strings reproduce the source texts, with the single-quote
  characters around interpolated values omitted.
* String searching, slicing and case mapping are expressed on the character
  list (`str_lower`, `str_startsWith`, ... below): every pattern the code
  works with (`-`, `+`, `=`, `.exe`, the ASCII signal names, decimal digits)
  is single-byte ASCII, for which Rust's byte-level operations coincide with
  the character-level ones.
-/

namespace Winix

/-!
String primitives.  The Rust code works on UTF-8 `String`s; every pattern it
searches for (`"-"`, `"+"`, `"="`, `".exe"`, signal names, decimal digits)
is pure ASCII, so byte-level operations coincide with character-level ones.
The helpers below are character-list versions of the corresponding Rust
operations; they are used instead of the `String` library functions so that
every definition reduces inside the kernel.
-/

/-- Rust `str::starts_with`. -/
def str_startsWith (s pre : String) : Bool :=
  pre.data.isPrefixOf s.data

/-- Rust byte slicing `&s[n..]` for an ASCII prefix of length `n`. -/
def str_drop (s : String) (n : Nat) : String :=
  ⟨s.data.drop n⟩

/-- Rust `str::contains(c)`. -/
def str_contains (s : String) (c : Char) : Bool :=
  s.data.contains c

/-- `s.splitn(2, c)` second component: everything after the first occurrence
of `c` (the caller checks `str_contains` first, so the `[]` fallback of
`List.drop` is never observed). -/
def str_after_first (s : String) (c : Char) : String :=
  ⟨(s.data.dropWhile fun a => !(a == c)).drop 1⟩

/-- Rust `str::to_lowercase` (the names compared are ASCII). -/
def str_lower (s : String) : String :=
  ⟨s.data.map Char.toLower⟩

/-- Rust `str::to_uppercase` (the signal tokens compared are ASCII). -/
def str_upper (s : String) : String :=
  ⟨s.data.map Char.toUpper⟩

/-- `s.chars().all(|c| c.is_ascii_digit())`. -/
def str_all_digits (s : String) : Bool :=
  s.data.all Char.isDigit

/-- The value of a nonempty all-digit character list, most significant
first. -/
def digits_to_nat (l : List Char) : Nat :=
  l.foldl (fun n c => n * 10 + (c.toNat - 48)) 0

/-- Decimal reading of a digit string: `some` exactly on nonempty all-digit
input (`String.toNat?`, restated so it reduces in the kernel). -/
def str_to_nat? (s : String) : Option Nat :=
  if !s.data.isEmpty && s.data.all Char.isDigit then
    some (digits_to_nat s.data)
  else
    none

/-- `Result<(), String>` of the Rust code. -/
abbrev Res := Except String Unit

/-- `true` exactly on `Ok`. -/
def resIsOk : Res → Bool
  | .ok _ => true
  | .error _ => false

/-- Rust `str::parse::<u32>`: optional leading `+`, then decimal digits,
value below `2^32`. -/
def rust_parse_u32 (s : String) : Option Nat :=
  let s' := if str_startsWith s "+" then str_drop s 1 else s
  match str_to_nat? s' with
  | some n => if n < 2 ^ 32 then some n else none
  | none => none

/-- Rust `str::parse::<u64>`. -/
def rust_parse_u64 (s : String) : Option Nat :=
  let s' := if str_startsWith s "+" then str_drop s 1 else s
  match str_to_nat? s' with
  | some n => if n < 2 ^ 64 then some n else none
  | none => none

/-- Rust `str::parse::<i32>`. -/
def rust_parse_i32 (s : String) : Option Int :=
  if str_startsWith s "-" then
    match str_to_nat? (str_drop s 1) with
    | some n => if n ≤ 2 ^ 31 then some (-(n : Int)) else none
    | none => none
  else
    let s' := if str_startsWith s "+" then str_drop s 1 else s
    match str_to_nat? s' with
    | some n => if n < 2 ^ 31 then some (n : Int) else none
    | none => none

/-- `struct KillOptions` from `src/kill.rs`. -/
structure KillOptions where
  signal : Option String := none
  signal_explicit : Option String := none
  print_only : Bool := false
  queue_value : Option Int := none
  all_processes : Bool := false
  timeout_ms : Option Nat := none
  timeout_signal : Option String := none
  end_of_options : Bool := false
  targets : List String := []
  deriving Repr, DecidableEq

/-- `enum WindowsKillMethod` from `src/kill.rs`. -/
inductive WindowsKillMethod where
  | ForceTerminate
  | GracefulCtrlC
  | GracefulCtrlBreak
  | WindowClose
  deriving Repr, DecidableEq

/-- One entry of a Toolhelp32 process snapshot: executable file name and
process identifier. -/
structure ProcEntry where
  exe : String
  pid : Nat
  deriving Repr, DecidableEq

/-- Externally visible side effects of the engine, in order of occurrence. -/
inductive Event where
  /-- `TerminateProcess` was invoked on `pid` (the handle had been opened). -/
  | terminate (pid : Nat)
  /-- `GenerateConsoleCtrlEvent` was invoked on `pid`
      (`ctrlBreak = true` for `CTRL_BREAK_EVENT`, `false` for `CTRL_C_EVENT`). -/
  | ctrl (ctrlBreak : Bool) (pid : Nat)
  /-- An `EnumWindows` pass posting `WM_CLOSE` to the windows of `pid` ran. -/
  | close (pid : Nat)
  /-- `thread::sleep` for `ms` milliseconds. -/
  | sleep (ms : Nat)
  deriving Repr, DecidableEq

/-- The process the event acts on, if any. -/
def eventPid : Event → Option Nat
  | .terminate pid => some pid
  | .ctrl _ pid => some pid
  | .close pid => some pid
  | .sleep _ => none

/-- The operating-system state the engine runs against.  Snapshot and
liveness data are given separately for the phase before the timeout wait
(`snap1`, `alive1`) and after it (`snap2`, `alive2`); an `Except.error` value
for a snapshot stands for the formatted snapshot-creation failure message. -/
structure Env where
  /-- `GetCurrentProcessId()`. -/
  currentPid : Nat
  /-- Snapshot taken by `find_processes_by_name` during the initial pass. -/
  snap1 : Except String (List ProcEntry)
  /-- Snapshot taken during timeout re-resolution. -/
  snap2 : Except String (List ProcEntry)
  /-- Pids for which `process_exists` holds before the timeout wait. -/
  alive1 : List Nat
  /-- Pids for which `process_exists` holds after the timeout wait. -/
  alive2 : List Nat
  /-- Error code with which `OpenProcess(PROCESS_TERMINATE | ...)` fails,
      `none` when the handle opens. -/
  openTermErr : Nat → Option Nat
  /-- Error code with which `TerminateProcess` fails, `none` on success. -/
  termErr : Nat → Option Nat
  /-- Error code with which `GenerateConsoleCtrlEvent ctrlBreak pid` fails,
      `none` on success. -/
  ctrlErr : Bool → Nat → Option Nat
  /-- Error code with which `EnumWindows` itself fails, `none` on success. -/
  enumErr : Option Nat
  /-- Top-level windows owned by `pid` found during enumeration. -/
  winFound : Nat → Nat
  /-- Windows of `pid` that accepted the posted `WM_CLOSE`. -/
  winClosed : Nat → Nat

/-- `PROTECTED_PIDS` of `validate_pid_safety`. -/
def PROTECTED_PIDS : List Nat := [0, 4, 8]

/-- `validate_pid_safety` from `src/kill.rs`: deny-listed system pids first,
then the caller's own pid (`GetCurrentProcessId`, passed in as `currentPid`). -/
def validate_pid_safety (currentPid pid : Nat) : Res :=
  if PROTECTED_PIDS.contains pid then
    .error s!"Cannot kill system process with PID {pid}"
  else if pid == currentPid then
    .error "Cannot kill current process"
  else
    .ok ()

/-- `process_exists`: `OpenProcess(PROCESS_QUERY_INFORMATION, ...)` succeeds,
modelled as membership in the alive list of the current phase. -/
def process_exists (alive : List Nat) (pid : Nat) : Bool :=
  alive.contains pid

/-- The match test of `find_processes_by_name`, on the already lowercased
executable name and target name: equal, equal with `.exe` appended, or the
byte slice before a terminal `.exe` equals the target (the last clause is the
Rust `exe_name.ends_with(".exe") && exe_name[..exe_name.len() - 4] ==
target_name`, expressed on character lists — `".exe"` is ASCII). -/
def name_matches (exe_name target_name : String) : Bool :=
  exe_name == target_name
    || exe_name == target_name ++ ".exe"
    || (".exe".data.isSuffixOf exe_name.data
        && exe_name.data.take (exe_name.data.length - 4) == target_name.data)

/-- `find_processes_by_name` from `src/kill.rs`: walk the snapshot in order,
lowercase both names, collect the pids of matching entries. -/
def find_processes_by_name (snap : Except String (List ProcEntry))
    (name : String) : Except String (List Nat) :=
  match snap with
  | .error e => .error e
  | .ok entries =>
    .ok ((entries.filter fun entry =>
      name_matches (str_lower entry.exe) (str_lower name)).map (·.pid))

/-- `force_terminate_process` from `src/kill.rs`: open with terminate rights
(error codes 5 and 87 get dedicated messages), then `TerminateProcess`
(error code 5 gets a dedicated message). -/
def force_terminate_process (env : Env) (pid : Nat) : Res × List Event :=
  match env.openTermErr pid with
  | some 5 =>
    (.error s!"Access denied: Cannot terminate process {pid} (insufficient privileges)", [])
  | some 87 => (.error s!"Invalid PID: Process {pid} does not exist", [])
  | some e =>
    (.error s!"Failed to open process {pid}: Windows error code {e}", [])
  | none =>
    match env.termErr pid with
    | some 5 =>
      (.error s!"Access denied: Cannot terminate process {pid} (protected process)",
       [Event.terminate pid])
    | some e =>
      (.error s!"Failed to terminate process {pid}: Windows error code {e}",
       [Event.terminate pid])
    | none => (.ok (), [Event.terminate pid])

/-- `window_close_process` from `src/kill.rs`: enumerate top-level windows,
post `WM_CLOSE` to those of `pid`; failure when the enumeration fails, when
no window is found, or when none accepts the message. -/
def window_close_process (env : Env) (pid : Nat) : Res × List Event :=
  match env.enumErr with
  | some e =>
    (.error s!"Failed to enumerate windows: Windows error code {e}", [Event.close pid])
  | none =>
    if env.winFound pid == 0 then
      (.error s!"No windows found for process {pid} (may be a console-only or background process)",
       [Event.close pid])
    else if env.winClosed pid == 0 then
      (.error s!"Found {env.winFound pid} windows for process {pid} but failed to send close messages",
       [Event.close pid])
    else
      (.ok (), [Event.close pid])

/-- `graceful_terminate_fallback` from `src/kill.rs`: try the window-close
route; if that fails, force-terminate.  Only the last step's outcome is the
result. -/
def graceful_terminate_fallback (env : Env) (pid : Nat) (_use_ctrl_break : Bool) :
    Res × List Event :=
  match window_close_process env pid with
  | (.ok _, ev) => (.ok (), ev)
  | (.error _, ev) =>
    let (r, ev') := force_terminate_process env pid
    (r, ev ++ ev')

/-- `graceful_terminate_process` from `src/kill.rs`: send the console control
event; error codes 6 and 87 are reported directly, any other failure code
goes to `graceful_terminate_fallback`. -/
def graceful_terminate_process (env : Env) (pid : Nat) (use_ctrl_break : Bool) :
    Res × List Event :=
  match env.ctrlErr use_ctrl_break pid with
  | none => (.ok (), [Event.ctrl use_ctrl_break pid])
  | some 6 =>
    (.error s!"Invalid handle: Process {pid} is not a console process or not accessible",
     [Event.ctrl use_ctrl_break pid])
  | some 87 =>
    (.error s!"Invalid parameter: Process {pid} may not exist or not be a console application",
     [Event.ctrl use_ctrl_break pid])
  | some _ =>
    let (r, ev) := graceful_terminate_fallback env pid use_ctrl_break
    (r, Event.ctrl use_ctrl_break pid :: ev)

/-- `kill_process_with_method` from `src/kill.rs`. -/
def kill_process_with_method (env : Env) (pid : Nat) (method : WindowsKillMethod) :
    Res × List Event :=
  match method with
  | .ForceTerminate => force_terminate_process env pid
  | .GracefulCtrlC => graceful_terminate_process env pid false
  | .GracefulCtrlBreak => graceful_terminate_process env pid true
  | .WindowClose => window_close_process env pid

/-- `kill_process_by_pid` from `src/kill.rs`: safety check, existence check,
then dispatch on the method. -/
def kill_process_by_pid (env : Env) (pid : Nat) (method : WindowsKillMethod) :
    Res × List Event :=
  match validate_pid_safety env.currentPid pid with
  | .error e => (.error e, [])
  | .ok _ =>
    if process_exists env.alive1 pid then
      kill_process_with_method env pid method
    else
      (.error s!"No such process: {pid}", [])

/-- The per-pid loop of `kill_process_by_name`: accumulated error messages,
success count, events. -/
def kill_name_loop (env : Env) (name : String) (method : WindowsKillMethod) :
    List Nat → List String × Nat × List Event
  | [] => ([], 0, [])
  | pid :: rest =>
    let (r, ev) := kill_process_by_pid env pid method
    let (errs, succ, evs) := kill_name_loop env name method rest
    match r with
    | .ok _ => (errs, succ + 1, ev ++ evs)
    | .error e => (s!"Failed to kill {pid} ({name}): {e}" :: errs, succ, ev ++ evs)

/-- `kill_process_by_name` from `src/kill.rs`: resolve the name against the
initial snapshot, keep all matches or only the first depending on `-a`, kill
each, join the per-pid errors. -/
def kill_process_by_name (env : Env) (name : String) (method : WindowsKillMethod)
    (options : KillOptions) : Res × List Event :=
  match find_processes_by_name env.snap1 name with
  | .error e => (.error e, [])
  | .ok pids =>
    match pids with
    | [] => (.error s!"No processes found with name: {name}", [])
    | p :: rest =>
      let targets := if options.all_processes then p :: rest else [p]
      let (errs, succ, evs) := kill_name_loop env name method targets
      if errs.isEmpty then
        if succ == 0 then
          (.error s!"No processes were killed for name: {name}", evs)
        else
          (.ok (), evs)
      else
        (.error (String.intercalate "; " errs), evs)

/-- The per-target loop of `handle_kill` (`src/kill.rs`, `for target in
&options.targets`): all-digit targets are parsed as `u32` — a parse failure
propagates through `?` and aborts the whole loop — and killed by pid,
everything else is killed by name; each completed attempt contributes one
`(target, result)` pair, in order. -/
def collect_results (env : Env) (method : WindowsKillMethod)
    (options : KillOptions) :
    List String → Except String (List (String × Res)) × List Event
  | [] => (.ok [], [])
  | target :: rest =>
    if str_all_digits target then
      match rust_parse_u32 target with
      | none => (.error s!"Invalid PID: {target} must be a number or name", [])
      | some pid =>
        let (r, ev) := kill_process_by_pid env pid method
        let (rs, evs) := collect_results env method options rest
        match rs with
        | .error e => (.error e, ev ++ evs)
        | .ok l => (.ok ((target, r) :: l), ev ++ evs)
    else
      let (r, ev) := kill_process_by_name env target method options
      let (rs, evs) := collect_results env method options rest
      match rs with
      | .error e => (.error e, ev ++ evs)
      | .ok l => (.ok ((target, r) :: l), ev ++ evs)

/-- The loop of `handle_print_only_mode`: numeric targets are printed as is,
names are resolved against the initial snapshot; a resolution failure or an
empty match aborts through `?` / early `return`.  Printing has no events. -/
def print_only_loop (env : Env) : List String → Res
  | [] => .ok ()
  | target :: rest =>
    if str_all_digits target then
      print_only_loop env rest
    else
      match find_processes_by_name env.snap1 target with
      | .error e => .error e
      | .ok pids =>
        if pids.isEmpty then
          .error s!"No processes found with name: {target}"
        else
          print_only_loop env rest

/-- `handle_print_only_mode` from `src/kill.rs`. -/
def handle_print_only_mode (env : Env) (options : KillOptions) :
    Res × List Event :=
  (print_only_loop env options.targets, [])

/-- `report_kill_results` from `src/kill.rs`: the aggregate fails exactly
when some per-target result failed. -/
def report_kill_results (results : List (String × Res)) : Res :=
  if results.any (fun p => !(resIsOk p.2)) then
    .error "Some kill operations failed"
  else
    .ok ()

/-- `is_valid_signal_name` from `src/kill.rs`. -/
def is_valid_signal_name (signal : String) : Bool :=
  match str_upper signal with
  | "TERM" | "KILL" | "INT" | "QUIT" | "2" | "3" | "9" | "15" => true
  | _ => false

/-- `signal_to_windows_method` from `src/kill.rs`. -/
def signal_to_windows_method (signal : String) :
    Except String WindowsKillMethod :=
  match str_upper signal with
  | "KILL" | "9" => .ok .ForceTerminate
  | "TERM" | "15" => .ok .GracefulCtrlC
  | "INT" | "2" => .ok .GracefulCtrlC
  | "QUIT" | "3" => .ok .GracefulCtrlBreak
  | _ =>
    .error s!"Signal {signal} is not supported on Windows. Supported signals: TERM(15), INT(2), QUIT(3), KILL(9)"

/-- The pid-collection pass of `handle_timeout_kill`: from the targets whose
initial result is `Ok`, all-digit targets re-parse to their pid, name targets
are re-resolved against the second snapshot (all matches with `-a`, else the
first; a resolution failure contributes nothing). -/
def collect_target_pids (env : Env) (options : KillOptions) :
    List (String × Res) → List (Nat × String)
  | [] => []
  | (target, r) :: rest =>
    let here :=
      if resIsOk r then
        if str_all_digits target then
          match rust_parse_u32 target with
          | some pid => [(pid, target)]
          | none => []
        else
          match find_processes_by_name env.snap2 target with
          | .ok pids =>
            if options.all_processes then
              pids.map fun pid => (pid, target)
            else
              (pids.take 1).map fun pid => (pid, target)
          | .error _ => []
      else
        []
    here ++ collect_target_pids env options rest

/-- The final loop of `handle_timeout_kill` over the still-alive pids:
re-validate safety (a failure is recorded as text and skipped), then send the
timeout method.  Returns accumulated error texts, the success count and the
events. -/
def timeout_kill_loop (env : Env) (method : WindowsKillMethod) :
    List (Nat × String) → List String × Nat × List Event
  | [] => ([], 0, [])
  | (pid, target_name) :: rest =>
    match validate_pid_safety env.currentPid pid with
    | .error e =>
      let (errs, succ, evs) := timeout_kill_loop env method rest
      (s!"Cannot kill {pid} ({target_name}): {e}" :: errs, succ, evs)
    | .ok _ =>
      let (r, ev) := kill_process_with_method env pid method
      let (errs, succ, evs) := timeout_kill_loop env method rest
      match r with
      | .ok _ => (errs, succ + 1, ev ++ evs)
      | .error e =>
        (s!"Timeout kill failed for {pid} ({target_name}): {e}" :: errs, succ,
         ev ++ evs)

/-- `handle_timeout_kill` from `src/kill.rs`: map the timeout signal, collect
the pids of initially successful targets (names re-resolved against the
second snapshot), return early when none; otherwise sleep the full
`timeout_ms`, keep the pids still alive afterwards, and send them the timeout
method (errors are only printed).  Every path past the signal mapping
returns `Ok`. -/
def handle_timeout_kill (env : Env) (results : List (String × Res))
    (timeout_ms : Nat) (options : KillOptions) : Res × List Event :=
  match options.timeout_signal with
  | none => (.error "Timeout signal not specified", [])
  | some timeout_signal =>
    match signal_to_windows_method timeout_signal with
    | .error e => (.error e, [])
    | .ok timeout_method =>
      let target_pids := collect_target_pids env options results
      if target_pids.isEmpty then
        (.ok (), [])
      else
        let still_alive :=
          target_pids.filter fun p => process_exists env.alive2 p.1
        if still_alive.isEmpty then
          (.ok (), [Event.sleep timeout_ms])
        else
          let (_errs, _succ, evs) :=
            timeout_kill_loop env timeout_method still_alive
          (.ok (), Event.sleep timeout_ms :: evs)

/-- The effective signal of `handle_kill`:
`options.signal.as_ref().or(options.signal_explicit.as_ref()).unwrap_or("9")`. -/
def effective_signal (options : KillOptions) : String :=
  ((options.signal).orElse fun _ => options.signal_explicit).getD "9"

/-- The body of `handle_kill` once the kill method is fixed: run the
per-target loop, then the timeout phase when `timeout_ms` is set, then the
aggregate report. -/
def handle_kill_main (env : Env) (options : KillOptions)
    (method : WindowsKillMethod) : Res × List Event :=
  match collect_results env method options options.targets with
  | (.error e, ev) => (.error e, ev)
  | (.ok results, ev) =>
    match options.timeout_ms with
    | some timeout_ms =>
      match handle_timeout_kill env results timeout_ms options with
      | (.error e, tev) => (.error e, ev ++ tev)
      | (.ok _, tev) => (report_kill_results results, ev ++ tev)
    | none => (report_kill_results results, ev)

/-- `handle_kill` from `src/kill.rs`. -/
def handle_kill (env : Env) (options : KillOptions) : Res × List Event :=
  if options.print_only then
    handle_print_only_mode env options
  else
    match signal_to_windows_method (effective_signal options) with
    | .error e => (.error e, [])
    | .ok method => handle_kill_main env options method

/-- The `"-s"` arm: consume the next argument as the explicit signal. -/
def parse_s_arm (options : KillOptions) (rest : List String) :
    Except String (KillOptions × List String) :=
  match rest with
  | [] => .error "Option -s requires a signal argument"
  | sig :: rest' =>
    .ok ({options with signal_explicit := some sig}, rest')

/-- The `"-q"` arm: consume the next argument as the queue value. -/
def parse_q_arm (options : KillOptions) (rest : List String) :
    Except String (KillOptions × List String) :=
  match rest with
  | [] => .error "Option -q requires a value argument"
  | v :: rest' =>
    match rust_parse_i32 v with
    | some val => .ok ({options with queue_value := some val}, rest')
    | none => .error s!"Invalid queue value: {v}"

/-- The `--timeout` arm: the `=`-form consumes nothing further and sets only
`timeout_ms`; the space form consumes the milliseconds and the signal. -/
def parse_timeout_arm (options : KillOptions) (arg : String)
    (rest : List String) : Except String (KillOptions × List String) :=
  if str_contains arg '=' then
    let value := str_after_first arg '='
    match rust_parse_u64 value with
    | some ms => .ok ({options with timeout_ms := some ms}, rest)
    | none => .error s!"Invalid timeout value: {value}"
  else
    match rest with
    | [] => .error "Option --timeout requires milliseconds argument"
    | msArg :: rest' =>
      match rust_parse_u64 msArg with
      | none => .error s!"Invalid timeout value: {msArg}"
      | some ms =>
        match rest' with
        | [] => .error "Option --timeout requires a signal argument"
        | sig :: rest'' =>
          .ok ({options with timeout_ms := some ms,
                             timeout_signal := some sig}, rest'')

/-- The `-signal` arm: numeric or recognised signal names are stored, other
dash arguments are rejected. -/
def parse_signal_arm (options : KillOptions) (arg : String)
    (rest : List String) : Except String (KillOptions × List String) :=
  let signal := str_drop arg 1
  if str_all_digits signal then
    .ok ({options with signal := some signal}, rest)
  else if is_valid_signal_name signal then
    .ok ({options with signal := some signal}, rest)
  else
    .error s!"Invalid signal: -{signal}"

/-- One iteration of the `while i < args.len()` loop of `parse_arguments`
(`src/kill.rs`): `arg = args[i]`, `rest` the arguments after it.  An early
Rust `return Err(..)` is `Except.error`; otherwise the result is the updated
options together with the arguments still to be processed (flags such as
`-s`, `-q` and the space form of `--timeout` consume arguments from
`rest`). -/
def parse_step (options : KillOptions) (arg : String) (rest : List String) :
    Except String (KillOptions × List String) :=
  if options.end_of_options then
    .ok ({options with targets := options.targets ++ [arg]}, rest)
  else if arg == "--" then
    .ok ({options with end_of_options := true}, rest)
  else if arg == "-p" then
    .ok ({options with print_only := true}, rest)
  else if arg == "-a" then
    .ok ({options with all_processes := true}, rest)
  else if arg == "-s" then
    parse_s_arm options rest
  else if arg == "-q" then
    parse_q_arm options rest
  else if str_startsWith arg "--timeout" then
    parse_timeout_arm options arg rest
  else if str_startsWith arg "-" && arg.length > 1 then
    parse_signal_arm options arg rest
  else
    .ok ({options with targets := options.targets ++ [arg]}, rest)

/-- The `-s` arm never lengthens the unprocessed suffix. -/
theorem parse_s_arm_length (options : KillOptions) (rest : List String)
    (options' : KillOptions) (rest' : List String)
    (h : parse_s_arm options rest = .ok (options', rest')) :
    rest'.length ≤ rest.length := by
  unfold parse_s_arm at h
  split at h
  · exact absurd h (by simp)
  · cases h; simp

/-- The `-q` arm never lengthens the unprocessed suffix. -/
theorem parse_q_arm_length (options : KillOptions) (rest : List String)
    (options' : KillOptions) (rest' : List String)
    (h : parse_q_arm options rest = .ok (options', rest')) :
    rest'.length ≤ rest.length := by
  unfold parse_q_arm at h
  split at h
  · exact absurd h (by simp)
  · split at h
    · cases h; simp
    · exact absurd h (by simp)

/-- The `--timeout` arm never lengthens the unprocessed suffix. -/
theorem parse_timeout_arm_length (options : KillOptions) (arg : String)
    (rest : List String) (options' : KillOptions) (rest' : List String)
    (h : parse_timeout_arm options arg rest = .ok (options', rest')) :
    rest'.length ≤ rest.length := by
  unfold parse_timeout_arm at h
  split at h
  · simp only [] at h
    split at h
    · cases h; exact Nat.le_refl _
    · exact absurd h (by simp)
  · split at h
    · exact absurd h (by simp)
    · split at h
      · exact absurd h (by simp)
      · split at h
        · exact absurd h (by simp)
        · cases h
          simp_all
          omega

/-- The `-signal` arm never lengthens the unprocessed suffix. -/
theorem parse_signal_arm_length (options : KillOptions) (arg : String)
    (rest : List String) (options' : KillOptions) (rest' : List String)
    (h : parse_signal_arm options arg rest = .ok (options', rest')) :
    rest'.length ≤ rest.length := by
  unfold parse_signal_arm at h
  simp only [] at h
  split at h
  · cases h; exact Nat.le_refl _
  · split at h
    · cases h; exact Nat.le_refl _
    · exact absurd h (by simp)

/-- A parse step never moves backwards: the unprocessed suffix it returns is
no longer than the arguments after the current one. -/
theorem parse_step_length (options : KillOptions) (arg : String)
    (rest : List String) (options' : KillOptions) (rest' : List String)
    (h : parse_step options arg rest = .ok (options', rest')) :
    rest'.length ≤ rest.length := by
  unfold parse_step at h
  split at h
  · cases h; exact Nat.le_refl _
  · split at h
    · cases h; exact Nat.le_refl _
    · split at h
      · cases h; exact Nat.le_refl _
      · split at h
        · cases h; exact Nat.le_refl _
        · split at h
          · exact parse_s_arm_length _ _ _ _ h
          · split at h
            · exact parse_q_arm_length _ _ _ _ h
            · split at h
              · exact parse_timeout_arm_length _ _ _ _ _ h
              · split at h
                · exact parse_signal_arm_length _ _ _ _ _ h
                · cases h; exact Nat.le_refl _

/-- The `while i < args.len()` loop of `parse_arguments`, iterating
`parse_step` until the arguments run out or an early error return occurs.
`fuel` bounds the number of loop iterations; each iteration consumes at
least one argument, so `parse_arguments` passes `args.length` and the
zero-fuel case is unreachable (`parse_loop_fuel`). -/
def parse_loop (fuel : Nat) (options : KillOptions) (args : List String) :
    Except String KillOptions :=
  match fuel, args with
  | _, [] => .ok options
  | fuel + 1, arg :: rest =>
    match parse_step options arg rest with
    | .error e => .error e
    | .ok (options', rest') => parse_loop fuel options' rest'
  | 0, _ :: _ => .ok options

/-- Any fuel of at least `args.length` computes the same result, so the fuel
argument of `parse_loop` is inert: the loop always exits through the
regular cases. -/
theorem parse_loop_fuel (fuel : Nat) :
    ∀ (args : List String) (options : KillOptions), args.length ≤ fuel →
    parse_loop fuel options args = parse_loop args.length options args := by
  induction fuel using Nat.strong_induction_on with
  | _ fuel ih =>
    intro args options h
    match fuel, args with
    | fuel, [] => cases fuel <;> rfl
    | fuel + 1, arg :: rest =>
      have h1 : rest.length ≤ fuel := by
        simpa using h
      simp only [parse_loop, List.length_cons]
      cases hs : parse_step options arg rest with
      | error e => rfl
      | ok p =>
        obtain ⟨options', rest'⟩ := p
        have hr : rest'.length ≤ rest.length :=
          parse_step_length _ _ _ _ _ hs
        simp only []
        rw [ih fuel (Nat.lt_succ_self _) rest' options' (Nat.le_trans hr h1),
          ih rest.length (Nat.lt_succ_of_le h1) rest' options' hr]

/-- `parse_arguments` from `src/kill.rs`. -/
def parse_arguments (args : List String) : Except String KillOptions :=
  parse_loop args.length {} args

/-- The tail of `validate_options` after the signal check: the `-a`/pid
restriction, the timeout-requires-signal rule, and the timeout-signal
mapping. -/
def validate_options_rest (options : KillOptions) : Res :=
  if options.all_processes
      && options.targets.any (fun t => str_all_digits t) then
    .error "Cannot use -a flag with numeric PIDs"
  else if options.timeout_ms.isSome && !options.timeout_signal.isSome then
    .error "--timeout option requires a signal"
  else
    match options.timeout_signal with
    | some timeout_signal =>
      match signal_to_windows_method timeout_signal with
      | .error e => .error e
      | .ok _ => .ok ()
    | none => .ok ()

/-- `validate_options` from `src/kill.rs`. -/
def validate_options (options : KillOptions) : Res :=
  if options.targets.isEmpty && !options.print_only then
    .error "No process ID or name specified"
  else if options.signal.isSome && options.signal_explicit.isSome then
    .error "Cannot specify signal with both -signal and -s options"
  else
    match ((options.signal).orElse fun _ => options.signal_explicit) with
    | some signal =>
      match signal_to_windows_method signal with
      | .error e => .error e
      | .ok _ => validate_options_rest options
    | none => validate_options_rest options

/-- The usage text `execute` prints for an empty argument list (the full
help text of the source, condensed to its first line here). -/
def usage_text : String :=
  "Usage: kill [-signal|-s signal|-p] [-q value] [-a] [--timeout milliseconds signal] [--] pid|name..."

/-- `execute` from `src/kill.rs`: usage error on empty arguments, then
parse, validate, and run `handle_kill`.  Parse and validation failures
produce no events. -/
def execute (env : Env) (args : List String) : Res × List Event :=
  if args.isEmpty then
    (.error usage_text, [])
  else
    match parse_arguments args with
    | .error e => (.error e, [])
    | .ok options =>
      match validate_options options with
      | .error e => (.error e, [])
      | .ok _ => handle_kill env options

/-!  Verification. -/

deriving instance DecidableEq for Except

/-- A quiescent operating-system state used to instantiate theorems on
concrete inputs: the shell runs as pid 1, no other process exists, and every
Win32 primitive succeeds. -/
def baseEnv : Env where
  currentPid := 1
  snap1 := .ok []
  snap2 := .ok []
  alive1 := []
  alive2 := []
  openTermErr := fun _ => none
  termErr := fun _ => none
  ctrlErr := fun _ _ => none
  enumErr := none
  winFound := fun _ => 0
  winClosed := fun _ => 0

/-- One parse step leaves the timeout fields alone, or definitely sets
`timeout_ms` (the `=`-form sets only `timeout_ms`, the space form sets
both). -/
theorem parse_step_timeout_fields (options : KillOptions) (arg : String)
    (rest : List String) (options' : KillOptions) (rest' : List String)
    (h : parse_step options arg rest = .ok (options', rest')) :
    (options'.timeout_ms = options.timeout_ms
      ∧ options'.timeout_signal = options.timeout_signal)
    ∨ options'.timeout_ms.isSome = true := by
  unfold parse_step at h
  split at h
  · cases h; exact Or.inl ⟨rfl, rfl⟩
  · split at h
    · cases h; exact Or.inl ⟨rfl, rfl⟩
    · split at h
      · cases h; exact Or.inl ⟨rfl, rfl⟩
      · split at h
        · cases h; exact Or.inl ⟨rfl, rfl⟩
        · split at h
          · unfold parse_s_arm at h
            split at h
            · exact absurd h (by simp)
            · cases h; exact Or.inl ⟨rfl, rfl⟩
          · split at h
            · unfold parse_q_arm at h
              split at h
              · exact absurd h (by simp)
              · split at h
                · cases h; exact Or.inl ⟨rfl, rfl⟩
                · exact absurd h (by simp)
            · split at h
              · unfold parse_timeout_arm at h
                split at h
                · simp only [] at h
                  split at h
                  · cases h; exact Or.inr rfl
                  · exact absurd h (by simp)
                · split at h
                  · exact absurd h (by simp)
                  · split at h
                    · exact absurd h (by simp)
                    · split at h
                      · exact absurd h (by simp)
                      · cases h; exact Or.inr rfl
              · split at h
                · unfold parse_signal_arm at h
                  simp only [] at h
                  split at h
                  · cases h; exact Or.inl ⟨rfl, rfl⟩
                  · split at h
                    · cases h; exact Or.inl ⟨rfl, rfl⟩
                    · exact absurd h (by simp)
                · cases h; exact Or.inl ⟨rfl, rfl⟩

/-- Throughout the parse loop, a set `timeout_signal` is always accompanied
by a set `timeout_ms`: the only branch that sets the signal sets both. -/
theorem parse_loop_timeout_invariant (fuel : Nat) :
    ∀ (args : List String) (options res : KillOptions),
    parse_loop fuel options args = .ok res →
    (options.timeout_signal.isSome = true → options.timeout_ms.isSome = true) →
    (res.timeout_signal.isSome = true → res.timeout_ms.isSome = true) := by
  induction fuel with
  | zero =>
    intro args options res h hinv
    cases args with
    | nil => cases h; exact hinv
    | cons arg rest => cases h; exact hinv
  | succ fuel ih =>
    intro args options res h hinv
    cases args with
    | nil => cases h; exact hinv
    | cons arg rest =>
      simp only [parse_loop] at h
      cases hs : parse_step options arg rest with
      | error e => rw [hs] at h; exact absurd h (by simp)
      | ok p =>
        obtain ⟨options', rest'⟩ := p
        rw [hs] at h
        simp only [] at h
        rcases parse_step_timeout_fields _ _ _ _ _ hs with ⟨hm, hsg⟩ | hm
        · exact ih rest' options' res h (by rw [hsg, hm]; exact hinv)
        · exact ih rest' options' res h (fun _ => hm)

/-- A request that passes `validate_options` passed its tail
`validate_options_rest` as well. -/
theorem validate_options_ok_rest (options : KillOptions)
    (h : validate_options options = .ok ()) :
    validate_options_rest options = .ok () := by
  unfold validate_options at h
  split at h
  · exact absurd h (by simp)
  · split at h
    · exact absurd h (by simp)
    · split at h
      · split at h
        · exact absurd h (by simp)
        · exact h
      · exact h

/-- C7: an argument list containing `--timeout 1000` with no trailing signal
token fails validation, `--timeout=1000` with no separate signal argument
also fails, and in any argument list that parses and validates,
`timeout_ms` and `timeout_signal` are set or unset together. -/
theorem timeout_and_signal_set_together :
    parse_arguments ["--timeout", "1000"]
      = .error "Option --timeout requires a signal argument"
    ∧ Except.bind (parse_arguments ["--timeout=1000", "notepad"])
        (fun options => validate_options options)
      = .error "--timeout option requires a signal"
    ∧ ∀ (args : List String) (options : KillOptions),
        parse_arguments args = .ok options →
        validate_options options = .ok () →
        options.timeout_ms.isSome = options.timeout_signal.isSome := by
  refine ⟨by decide, by decide, ?_⟩
  intro args options hp hv
  have hS : options.timeout_signal.isSome = true →
      options.timeout_ms.isSome = true :=
    parse_loop_timeout_invariant args.length args {} options hp (by decide)
  have hrest := validate_options_ok_rest options hv
  unfold validate_options_rest at hrest
  split at hrest
  · exact absurd hrest (by simp)
  · split at hrest
    · exact absurd hrest (by simp)
    · rename_i hneg
      cases hm : options.timeout_ms.isSome with
      | false =>
        cases ht : options.timeout_signal.isSome with
        | false => rfl
        | true => exact absurd (hS ht) (by rw [hm]; simp)
      | true =>
        cases ht : options.timeout_signal.isSome with
        | false => exact absurd (by rw [hm, ht]; rfl) hneg
        | true => rfl

/-- Witness for C7 at a concrete argument list: `--timeout 5 9 123` parses,
validates, and indeed has both timeout fields set. -/
theorem timeout_and_signal_set_together_witness :
    ({ timeout_ms := some 5, timeout_signal := some "9",
       targets := ["123"] : KillOptions}).timeout_ms.isSome
      = ({ timeout_ms := some 5, timeout_signal := some "9",
           targets := ["123"] : KillOptions}).timeout_signal.isSome :=
  timeout_and_signal_set_together.2.2 ["--timeout", "5", "9", "123"]
    { timeout_ms := some 5, timeout_signal := some "9", targets := ["123"] }
    (by decide) (by decide)

/-- C3: the Signal Mapper treats numeric and named forms of the four
supported signals alike, in any letter case: everything whose uppercasing is
`KILL` or `9` maps to forced termination, `TERM`/`15`/`INT`/`2` map to the
console interrupt strategy, `QUIT`/`3` to the console break strategy. -/
theorem signal_mapper_numeric_named_agree (s : String) :
    ((str_upper s = "KILL" ∨ str_upper s = "9") →
      signal_to_windows_method s = .ok .ForceTerminate)
    ∧ ((str_upper s = "TERM" ∨ str_upper s = "15"
        ∨ str_upper s = "INT" ∨ str_upper s = "2") →
      signal_to_windows_method s = .ok .GracefulCtrlC)
    ∧ ((str_upper s = "QUIT" ∨ str_upper s = "3") →
      signal_to_windows_method s = .ok .GracefulCtrlBreak) := by
  refine ⟨fun h => ?_, fun h => ?_, fun h => ?_⟩
  · unfold signal_to_windows_method
    rcases h with h | h <;> rw [h] <;> rfl
  · unfold signal_to_windows_method
    rcases h with h | h | h | h <;> rw [h] <;> rfl
  · unfold signal_to_windows_method
    rcases h with h | h <;> rw [h] <;> rfl

/-- Witness for C3: the lower-case name `kill` and the numeral `9` both map
to `ForceTerminate`. -/
theorem signal_mapper_numeric_named_agree_witness :
    signal_to_windows_method "kill" = .ok .ForceTerminate
    ∧ signal_to_windows_method "9" = .ok .ForceTerminate :=
  ⟨(signal_mapper_numeric_named_agree "kill").1 (Or.inl (by decide)),
   (signal_mapper_numeric_named_agree "9").1 (Or.inr (by decide))⟩

/-- An operating system in which every console control event fails with
error code 6 (not a console process), while the target owns three windows
that would all accept `WM_CLOSE`. -/
def envNonConsole : Env :=
  { baseEnv with
    ctrlErr := fun _ _ => some 6
    winFound := fun _ => 3
    winClosed := fun _ => 3 }

/-- Counterexample to C2: when `GenerateConsoleCtrlEvent` fails with error
code 6 — precisely the not-a-console-process failure the claim says triggers
the fallback — `graceful_terminate_process` reports that failure directly
and never attempts `WindowClose` (no `close` event), even though the window
route would have succeeded. -/
theorem graceful_no_fallback_on_non_console_counterexample :
    graceful_terminate_process envNonConsole 100 false
      = (.error "Invalid handle: Process 100 is not a console process or not accessible",
         [Event.ctrl false 100])
    ∧ resIsOk (window_close_process envNonConsole 100).1 = true := by
  exact ⟨by decide, by decide⟩

/-- C2 (amended): the automatic fallback ladder console-event → WindowClose
→ ForceTerminate runs only when the console-level send fails with an error
code other than 6 and 87; codes 6 (not a console process) and 87 (invalid
parameter) are reported directly as errors with no fallback.  When the
ladder runs, the console failure is not surfaced: the reported outcome is
`WindowClose`'s success, or else `ForceTerminate`'s outcome. -/
theorem graceful_fallback_on_other_failures (env : Env) (pid : Nat)
    (brk : Bool) (e : Nat) (hc : env.ctrlErr brk pid = some e)
    (h6 : e ≠ 6) (h87 : e ≠ 87) :
    graceful_terminate_process env pid brk
      = ((graceful_terminate_fallback env pid brk).1,
         Event.ctrl brk pid :: (graceful_terminate_fallback env pid brk).2)
    ∧ (resIsOk (window_close_process env pid).1 = true →
        (graceful_terminate_fallback env pid brk).1 = .ok ())
    ∧ (resIsOk (window_close_process env pid).1 = false →
        (graceful_terminate_fallback env pid brk).1
          = (force_terminate_process env pid).1) := by
  refine ⟨?_, ?_, ?_⟩
  · unfold graceful_terminate_process
    rw [hc]
    split
    · rename_i heq; exact absurd heq (by simp)
    · rename_i heq
      exact absurd (by simpa using heq) h6
    · rename_i heq
      exact absurd (by simpa using heq) h87
    · rcases hgf : graceful_terminate_fallback env pid brk with ⟨r, ev⟩
      rfl
  · intro hok
    unfold graceful_terminate_fallback
    rcases hw : window_close_process env pid with ⟨r, ev⟩
    rw [hw] at hok
    cases r with
    | ok u => rfl
    | error msg => exact absurd hok (by simp [resIsOk])
  · intro hbad
    unfold graceful_terminate_fallback
    rcases hw : window_close_process env pid with ⟨r, ev⟩
    rw [hw] at hbad
    cases r with
    | ok u => exact absurd hbad (by simp [resIsOk])
    | error msg =>
      rcases hf : force_terminate_process env pid with ⟨r', ev'⟩
      rfl

/-- Witness for the amended C2: with error code 1450 on the console event
and no windows, the ladder ends in a successful forced termination. -/
theorem graceful_fallback_on_other_failures_witness :
    graceful_terminate_process
        { baseEnv with ctrlErr := fun _ _ => some 1450 } 100 false
      = ((graceful_terminate_fallback
            { baseEnv with ctrlErr := fun _ _ => some 1450 } 100 false).1,
         Event.ctrl false 100 :: (graceful_terminate_fallback
            { baseEnv with ctrlErr := fun _ _ => some 1450 } 100 false).2) :=
  (graceful_fallback_on_other_failures
    { baseEnv with ctrlErr := fun _ _ => some 1450 } 100 false 1450
    (by decide) (by decide) (by decide)).1

/-- C10: the timeout-escalation phase cannot change the overall judgment.
Once the timeout signal maps to a strategy the escalation handler returns
success regardless of what happens to the individual still-alive targets,
and `handle_kill`'s final result is exactly the aggregation of the initial
per-target outcomes. -/
theorem escalation_failures_do_not_change_result :
    (∀ (env : Env) (results : List (String × Res)) (ms : Nat)
        (options : KillOptions) (ts : String) (tm : WindowsKillMethod),
      options.timeout_signal = some ts →
      signal_to_windows_method ts = .ok tm →
      (handle_timeout_kill env results ms options).1 = .ok ())
    ∧ ∀ (env : Env) (options : KillOptions) (ms : Nat) (ts : String)
        (tm method : WindowsKillMethod) (results : List (String × Res))
        (ev : List Event),
      options.print_only = false →
      options.timeout_ms = some ms →
      options.timeout_signal = some ts →
      signal_to_windows_method ts = .ok tm →
      signal_to_windows_method (effective_signal options) = .ok method →
      collect_results env method options options.targets = (.ok results, ev) →
      (handle_kill env options).1 = report_kill_results results := by
  constructor
  · intro env results ms options ts tm hts htm
    unfold handle_timeout_kill
    rw [hts]
    simp only []
    rw [htm]
    simp only []
    split
    · rfl
    · split
      · rfl
      · rcases timeout_kill_loop env tm _ with ⟨errs, succ, evs⟩
        rfl
  · intro env options ms ts tm method results ev hp hms hts htm hm hc
    have hok : (handle_timeout_kill env results ms options).1 = .ok () := by
      unfold handle_timeout_kill
      rw [hts]
      simp only []
      rw [htm]
      simp only []
      split
      · rfl
      · split
        · rfl
        · rcases timeout_kill_loop env tm _ with ⟨errs, succ, evs⟩
          rfl
    simp only [handle_kill, hp, Bool.false_eq_true, if_false, hm,
      handle_kill_main, hc, hms]
    rcases hht : handle_timeout_kill env results ms options with ⟨r, tev⟩
    rw [hht] at hok
    simp only [] at hok
    subst hok
    rfl

/-- Witness for C10: a request with a timeout whose still-alive target fails
even the escalation kill still reports overall success from the initial
outcomes. -/
theorem escalation_failures_do_not_change_result_witness :
    (handle_timeout_kill
        { baseEnv with
          alive1 := [30]
          alive2 := [30]
          termErr := fun _ => some 5 }
        [("30", Except.ok ())] 700
        { timeout_ms := some 700, timeout_signal := some "9"
          targets := ["30"] }).1 = .ok () :=
  escalation_failures_do_not_change_result.1
    { baseEnv with
      alive1 := [30]
      alive2 := [30]
      termErr := fun _ => some 5 }
    [("30", Except.ok ())] 700
    { timeout_ms := some 700, timeout_signal := some "9"
      targets := ["30"] }
    "9" .ForceTerminate rfl (by decide)

/-- The signal tokens a parsed request carries: the bare-flag signal, the
`-s` signal, and the `--timeout` signal. -/
def signal_tokens (options : KillOptions) : List String :=
  options.signal.toList ++ options.signal_explicit.toList
    ++ options.timeout_signal.toList

/-- If the `--timeout` signal does not map to a strategy, validation
fails. -/
theorem validate_rest_bad_timeout_token (options : KillOptions) (t e : String)
    (ht : options.timeout_signal = some t)
    (he : signal_to_windows_method t = .error e) :
    resIsOk (validate_options_rest options) = false := by
  unfold validate_options_rest
  split
  · rfl
  · split
    · rfl
    · rw [ht]
      simp only []
      rw [he]
      rfl

/-- If any of a request's signal tokens does not map to a strategy,
validation fails. -/
theorem validate_bad_token (options : KillOptions) (t e : String)
    (ht : t ∈ signal_tokens options)
    (he : signal_to_windows_method t = .error e) :
    resIsOk (validate_options options) = false := by
  have ht' : options.signal = some t ∨ options.signal_explicit = some t
      ∨ options.timeout_signal = some t := by
    simpa [signal_tokens, Option.mem_def] using ht
  unfold validate_options
  split
  · rfl
  · split
    · rfl
    · rename_i hboth
      split
      · rename_i sig hsig
        split
        · rfl
        · rename_i m hm
          rcases ht' with h | h | h
          · rw [h] at hsig
            simp [Option.orElse] at hsig
            rw [hsig] at he
            rw [he] at hm
            exact absurd hm (by simp)
          · cases hsg : options.signal with
            | some s =>
              exact absurd
                (show (options.signal.isSome
                    && options.signal_explicit.isSome) = true by
                  rw [hsg, h]; rfl) hboth
            | none =>
              rw [hsg, h] at hsig
              simp [Option.orElse] at hsig
              rw [hsig] at he
              rw [he] at hm
              exact absurd hm (by simp)
          · exact validate_rest_bad_timeout_token options t e h he
      · rename_i hsig
        rcases ht' with h | h | h
        · rw [h] at hsig
          simp [Option.orElse] at hsig
        · cases hsg : options.signal with
          | some s =>
            exact absurd
              (show (options.signal.isSome
                  && options.signal_explicit.isSome) = true by
                rw [hsg, h]; rfl) hboth
          | none =>
            rw [hsg, h] at hsig
            simp [Option.orElse] at hsig
        · exact validate_rest_bad_timeout_token options t e h he

/-- C8: a signal token outside the supported set stops the run during
parsing or validation, with no side effect on any process: a malformed
named flag (`-HUP`) fails parsing outright, and any parsed request whose
bare, `-s` or `--timeout` signal token the mapper rejects fails validation
with an empty event trace. -/
theorem invalid_signal_rejected_before_side_effects :
    (∀ env : Env, execute env ["-HUP", "123"]
      = (.error "Invalid signal: -HUP", []))
    ∧ ∀ (env : Env) (args : List String) (options : KillOptions) (t e : String),
        parse_arguments args = .ok options →
        t ∈ signal_tokens options →
        signal_to_windows_method t = .error e →
        resIsOk (execute env args).1 = false ∧ (execute env args).2 = [] := by
  refine ⟨fun _ => rfl, ?_⟩
  intro env args options t e hp ht he
  cases args with
  | nil => exact ⟨rfl, rfl⟩
  | cons a l =>
    have hbad := validate_bad_token options t e ht he
    simp only [execute, List.isEmpty, if_false, hp]
    cases hv : validate_options options with
    | error err => exact ⟨rfl, rfl⟩
    | ok u => rw [hv] at hbad; exact absurd hbad (by simp [resIsOk])

/-- Witness for C8: `kill -999 123` parses but fails validation, touching no
process even though pid 123 exists and would be killable. -/
theorem invalid_signal_rejected_before_side_effects_witness :
    resIsOk (execute { baseEnv with alive1 := [123] } ["-999", "123"]).1 = false
    ∧ (execute { baseEnv with alive1 := [123] } ["-999", "123"]).2 = [] :=
  invalid_signal_rejected_before_side_effects.2
    { baseEnv with alive1 := [123] } ["-999", "123"]
    { signal := some "999", targets := ["123"] } "999"
    "Signal 999 is not supported on Windows. Supported signals: TERM(15), INT(2), QUIT(3), KILL(9)"
    (by decide) (by decide) (by decide)

/-- C9: when neither the bare signal nor `-s` is given (and `-p` is not in
effect), the engine runs with the default token `9`, which maps to
`ForceTerminate`: the default is forced termination. -/
theorem default_signal_is_force_terminate (env : Env) (options : KillOptions)
    (h1 : options.signal = none) (h2 : options.signal_explicit = none)
    (h3 : options.print_only = false) :
    effective_signal options = "9"
    ∧ signal_to_windows_method "9" = .ok .ForceTerminate
    ∧ handle_kill env options = handle_kill_main env options .ForceTerminate := by
  have he : effective_signal options = "9" := by
    simp [effective_signal, h1, h2, Option.orElse]
  refine ⟨he, by decide, ?_⟩
  simp only [handle_kill, h3, Bool.false_eq_true, if_false, he]
  rfl

/-- Witness for C9 at a concrete request: `kill 5` force-terminates. -/
theorem default_signal_is_force_terminate_witness :
    effective_signal { targets := ["5"] } = "9"
    ∧ signal_to_windows_method "9" = .ok .ForceTerminate
    ∧ handle_kill baseEnv { targets := ["5"] }
      = handle_kill_main baseEnv { targets := ["5"] } .ForceTerminate :=
  default_signal_is_force_terminate baseEnv { targets := ["5"] } rfl rfl rfl

/-- The third clause of the match test is subsumed by the second: an
executable name that ends in `.exe` and whose stem equals the target is
exactly the target with `.exe` appended. -/
theorem name_matches_eq (x t : String) :
    name_matches x t = (x == t || x == t ++ ".exe") := by
  unfold name_matches
  cases h : (".exe".data.isSuffixOf x.data
      && x.data.take (x.data.length - 4) == t.data) with
  | false => simp [h]
  | true =>
    rw [Bool.and_eq_true] at h
    obtain ⟨hsuf, htake⟩ := h
    rw [List.isSuffixOf_iff_suffix] at hsuf
    obtain ⟨s, hs⟩ := hsuf
    have hlen : (s ++ ".exe".data).length - 4 = s.length := by
      simp
    have htk : x.data.take (x.data.length - 4) = s := by
      rw [← hs, hlen]
      exact List.take_left s _
    rw [htk] at htake
    have ht : s = t.data := by simpa using htake
    have hx : x = t ++ ".exe" := by
      apply String.ext
      rw [String.data_append, ← hs, ht]
    simp [hx]

/-- The per-pid loop of `kill_process_by_name` emits exactly the
concatenation of the per-pid kill attempts, in snapshot order. -/
theorem kill_name_loop_events (env : Env) (name : String)
    (method : WindowsKillMethod) (pids : List Nat) :
    (kill_name_loop env name method pids).2.2
      = (pids.map fun p => (kill_process_by_pid env p method).2).flatten := by
  induction pids with
  | nil => rfl
  | cons p rest ih =>
    simp only [kill_name_loop]
    rcases hk : kill_process_by_pid env p method with ⟨r, ev⟩
    rcases hl : kill_name_loop env name method rest with ⟨errs, succ, evs⟩
    rw [hl] at ih
    cases r <;> simp only [] <;> rw [List.map_cons, List.flatten_cons, hk, ← ih]

/-- C5: name targets are resolved case-insensitively against the bare name
and the name with `.exe` appended, in snapshot order (the resolved pids are
a sublist of the snapshot's pids); with `all_processes` unset only the first
match is attacked, with it set all of them are, and zero matches is a
`NotFound`-style error, not an empty success. -/
theorem name_resolution_spec :
    (∀ exe target : String,
      name_matches exe target = (exe == target || exe == target ++ ".exe"))
    ∧ (∀ (entries : List ProcEntry) (name : String) (pids : List Nat),
        find_processes_by_name (.ok entries) name = .ok pids →
        pids.Sublist (entries.map (·.pid)))
    ∧ (∀ (env : Env) (name : String) (method : WindowsKillMethod)
        (options : KillOptions),
        find_processes_by_name env.snap1 name = .ok [] →
        kill_process_by_name env name method options
          = (.error s!"No processes found with name: {name}", []))
    ∧ (∀ (env : Env) (name : String) (method : WindowsKillMethod)
        (options : KillOptions) (p : Nat) (rest : List Nat),
        options.all_processes = false →
        find_processes_by_name env.snap1 name = .ok (p :: rest) →
        (kill_process_by_name env name method options).2
            = (kill_process_by_pid env p method).2
        ∧ resIsOk (kill_process_by_name env name method options).1
            = resIsOk (kill_process_by_pid env p method).1)
    ∧ (∀ (env : Env) (name : String) (method : WindowsKillMethod)
        (options : KillOptions) (pids : List Nat),
        options.all_processes = true →
        find_processes_by_name env.snap1 name = .ok pids →
        (kill_process_by_name env name method options).2
          = (pids.map fun p => (kill_process_by_pid env p method).2).flatten) := by
  refine ⟨name_matches_eq, ?_, ?_, ?_, ?_⟩
  · intro entries name pids h
    cases hs : entries with
    | nil => simp [find_processes_by_name, hs] at h; simp [h]
    | cons a l =>
      rw [← hs]
      unfold find_processes_by_name at h
      simp only [Except.ok.injEq] at h
      subst h
      exact (List.filter_sublist entries).map (·.pid)
  · intro env name method options h
    unfold kill_process_by_name
    rw [h]
  · intro env name method options p rest hall h
    unfold kill_process_by_name
    rw [h, hall]
    simp only [Bool.false_eq_true, if_false]
    rcases hk : kill_process_by_pid env p method with ⟨r, ev⟩
    simp only [kill_name_loop, hk]
    cases r with
    | ok u => simp [resIsOk]
    | error e => simp [resIsOk, String.intercalate]
  · intro env name method options pids hall h
    unfold kill_process_by_name
    rw [h]
    cases pids with
    | nil => rfl
    | cons p rest =>
      rw [hall]
      simp only [if_true]
      rcases hl : kill_name_loop env name method (p :: rest)
        with ⟨errs, succ, evs⟩
      have := kill_name_loop_events env name method (p :: rest)
      rw [hl] at this
      simp only [] at this
      subst this
      split <;> [skip; rfl]
      split <;> rfl

/-- Witness for C5: a snapshot holding `Foo.exe`/`foo.exe`; resolving `FOO`
without `-a` attacks only pid 10, and the loop over both matches is the
concatenation of both attempts. -/
theorem name_resolution_spec_witness :
    name_matches "foo.exe" "foo" = ("foo.exe" == "foo" || "foo.exe" == "foo" ++ ".exe")
    ∧ ((kill_process_by_name
          { baseEnv with
            snap1 := .ok [⟨"Foo.exe", 10⟩, ⟨"foo.exe", 11⟩]
            alive1 := [10, 11] } "FOO" .ForceTerminate {}).2
        = (kill_process_by_pid
            { baseEnv with
              snap1 := .ok [⟨"Foo.exe", 10⟩, ⟨"foo.exe", 11⟩]
              alive1 := [10, 11] } 10 .ForceTerminate).2
      ∧ resIsOk (kill_process_by_name
          { baseEnv with
            snap1 := .ok [⟨"Foo.exe", 10⟩, ⟨"foo.exe", 11⟩]
            alive1 := [10, 11] } "FOO" .ForceTerminate {}).1
        = resIsOk (kill_process_by_pid
            { baseEnv with
              snap1 := .ok [⟨"Foo.exe", 10⟩, ⟨"foo.exe", 11⟩]
              alive1 := [10, 11] } 10 .ForceTerminate).1) :=
  ⟨name_resolution_spec.1 "foo.exe" "foo",
   name_resolution_spec.2.2.2.1
    { baseEnv with
      snap1 := .ok [⟨"Foo.exe", 10⟩, ⟨"foo.exe", 11⟩]
      alive1 := [10, 11] } "FOO" .ForceTerminate {} 10 [11]
    rfl (by decide)⟩

/-- One target's kill attempt, in isolation: the body of the per-target
loop of `handle_kill` for a single target. -/
def attempt_target (env : Env) (method : WindowsKillMethod)
    (options : KillOptions) (target : String) : Res × List Event :=
  if str_all_digits target then
    match rust_parse_u32 target with
    | some pid => kill_process_by_pid env pid method
    | none => (.error s!"Invalid PID: {target} must be a number or name", [])
  else
    kill_process_by_name env target method options

/-- An operating system in which only pid 100 is alive (the shell is
pid 1). -/
def envOnly100 : Env := { baseEnv with alive1 := [100] }

/-- Counterexample to C1: with targets `4294967296 100`, where the second
target is a live, killable process, the (validated) request aborts on the
first target's `u32` overflow with an empty event trace: the second target
is never attempted and contributes no outcome to any aggregation. -/
theorem per_target_isolation_counterexample :
    execute envOnly100 ["4294967296", "100"]
      = (.error "Invalid PID: 4294967296 must be a number or name", [])
    ∧ kill_process_by_pid envOnly100 100 .ForceTerminate
      = (.ok (), [Event.terminate 100]) := by
  exact ⟨by decide, by decide⟩

/-- C1 (amended): provided every all-digit target parses as a 32-bit
unsigned integer, the per-target loop attempts every target independently
and in order — each target contributes exactly one `(target, outcome)` pair
and the trace is the concatenation of the per-target attempt traces, so a
failure (such as a non-existent PID) on one target never prevents the
attempts on the later ones.  An all-digit target out of `u32` range instead
aborts the whole loop (see the counterexample). -/
theorem per_target_isolation (env : Env) (method : WindowsKillMethod)
    (options : KillOptions) (ts : List String)
    (h : ∀ t ∈ ts, str_all_digits t = true → (rust_parse_u32 t).isSome = true) :
    collect_results env method options ts
      = (.ok (ts.map fun t => (t, (attempt_target env method options t).1)),
         (ts.map fun t => (attempt_target env method options t).2).flatten) := by
  induction ts with
  | nil => rfl
  | cons t rest ih =>
    have ht := h t (List.mem_cons_self t rest)
    have hrest : ∀ t ∈ rest, str_all_digits t = true →
        (rust_parse_u32 t).isSome = true :=
      fun u hu => h u (List.mem_cons_of_mem t hu)
    simp only [collect_results, List.map_cons, List.flatten_cons]
    cases hd : str_all_digits t with
    | true =>
      cases hp : rust_parse_u32 t with
      | none => exact absurd (by rw [hp] at ht; exact ht hd) (by simp)
      | some pid =>
        rcases hk : kill_process_by_pid env pid method with ⟨r, ev⟩
        rw [ih hrest]
        simp only [attempt_target, hd, if_true, hp, hk]
    | false =>
      rcases hk : kill_process_by_name env t method options with ⟨r, ev⟩
      rw [ih hrest]
      simp only [attempt_target, hd, Bool.false_eq_true, if_false, hk]

/-- Witness for the amended C1: targets `100 7` (pid 7 does not exist, so
its attempt fails) still yield one outcome per target and the concatenated
trace. -/
theorem per_target_isolation_witness :
    collect_results envOnly100 .ForceTerminate {} ["100", "7"]
      = (.ok (["100", "7"].map fun t =>
            (t, (attempt_target envOnly100 .ForceTerminate {} t).1)),
         (["100", "7"].map fun t =>
            (attempt_target envOnly100 .ForceTerminate {} t).2).flatten) :=
  per_target_isolation envOnly100 .ForceTerminate {} ["100", "7"] (by decide)

/-- Every event of the trace acts on a pid outside the deny-list and
different from the caller's own pid. -/
def safe_events (cp : Nat) (l : List Event) : Prop :=
  ∀ ev ∈ l, ∀ p, eventPid ev = some p →
    PROTECTED_PIDS.contains p = false ∧ (p == cp) = false

/-- What passing the Safety Guard means. -/
theorem validate_pid_safety_ok_then (cp pid : Nat)
    (h : validate_pid_safety cp pid = .ok ()) :
    PROTECTED_PIDS.contains pid = false ∧ (pid == cp) = false := by
  unfold validate_pid_safety at h
  split at h
  · exact absurd h (by simp)
  · split at h
    · exact absurd h (by simp)
    · rename_i h1 h2
      exact ⟨by simpa using h1, by simpa using h2⟩

/-- `force_terminate_process` emits at most a `terminate` event for its own
pid. -/
theorem force_terminate_events (env : Env) (pid : Nat) :
    (force_terminate_process env pid).2 = []
    ∨ (force_terminate_process env pid).2 = [Event.terminate pid] := by
  unfold force_terminate_process
  repeat' split
  all_goals simp

/-- `window_close_process` emits exactly one `close` event for its own
pid. -/
theorem window_close_events (env : Env) (pid : Nat) :
    (window_close_process env pid).2 = [Event.close pid] := by
  unfold window_close_process
  repeat' split
  all_goals rfl

/-- Events of a forced termination target its pid. -/
theorem events_pid_force (env : Env) (pid : Nat) :
    ∀ ev ∈ (force_terminate_process env pid).2, eventPid ev = some pid := by
  intro ev hev
  rcases force_terminate_events env pid with h | h <;> rw [h] at hev
  · simp at hev
  · simp at hev
    subst hev
    rfl

/-- Events of a window close target its pid. -/
theorem events_pid_window (env : Env) (pid : Nat) :
    ∀ ev ∈ (window_close_process env pid).2, eventPid ev = some pid := by
  intro ev hev
  rw [window_close_events env pid] at hev
  simp at hev
  subst hev
  rfl

/-- Events of the graceful fallback ladder target its pid. -/
theorem events_pid_fallback (env : Env) (pid : Nat) (b : Bool) :
    ∀ ev ∈ (graceful_terminate_fallback env pid b).2,
      eventPid ev = some pid := by
  intro ev hev
  unfold graceful_terminate_fallback at hev
  rcases hw : window_close_process env pid with ⟨r, evw⟩
  rw [hw] at hev
  cases r with
  | ok u =>
    simp only [] at hev
    exact events_pid_window env pid ev (by rw [hw]; exact hev)
  | error e =>
    rcases hf : force_terminate_process env pid with ⟨r2, evf⟩
    rw [hf] at hev
    simp only [List.mem_append] at hev
    rcases hev with hev | hev
    · exact events_pid_window env pid ev (by rw [hw]; exact hev)
    · exact events_pid_force env pid ev (by rw [hf]; exact hev)

/-- The graceful path emits the console event, possibly followed by the
fallback ladder. -/
theorem graceful_events (env : Env) (pid : Nat) (b : Bool) :
    (graceful_terminate_process env pid b).2 = [Event.ctrl b pid]
    ∨ (graceful_terminate_process env pid b).2
        = Event.ctrl b pid :: (graceful_terminate_fallback env pid b).2 := by
  unfold graceful_terminate_process
  cases hc : env.ctrlErr b pid with
  | none => exact Or.inl rfl
  | some e =>
    split
    · exact Or.inl rfl
    · exact Or.inl rfl
    · exact Or.inl rfl
    · rcases hgf : graceful_terminate_fallback env pid b with ⟨r, ev⟩
      exact Or.inr rfl

/-- Events of a graceful termination target its pid. -/
theorem events_pid_graceful (env : Env) (pid : Nat) (b : Bool) :
    ∀ ev ∈ (graceful_terminate_process env pid b).2,
      eventPid ev = some pid := by
  intro ev hev
  rcases graceful_events env pid b with h | h <;> rw [h] at hev
  · simp at hev
    subst hev
    rfl
  · rcases List.mem_cons.mp hev with hev | hev
    · subst hev
      rfl
    · exact events_pid_fallback env pid b ev hev

/-- Events of any kill method target its pid. -/
theorem events_pid_method (env : Env) (pid : Nat) (m : WindowsKillMethod) :
    ∀ ev ∈ (kill_process_with_method env pid m).2,
      eventPid ev = some pid := by
  cases m
  · exact events_pid_force env pid
  · exact events_pid_graceful env pid false
  · exact events_pid_graceful env pid true
  · exact events_pid_window env pid

/-- The empty trace is safe. -/
theorem safe_events_nil (cp : Nat) : safe_events cp [] := by
  intro ev hev
  simp at hev

/-- Appending safe traces is safe. -/
theorem safe_events_append (cp : Nat) (a b : List Event)
    (ha : safe_events cp a) (hb : safe_events cp b) :
    safe_events cp (a ++ b) := by
  intro ev hev p hp
  rcases List.mem_append.mp hev with h | h
  · exact ha ev h p hp
  · exact hb ev h p hp

/-- `kill_process_by_pid` only acts after the Safety Guard passes, so its
trace is safe. -/
theorem safe_kill_by_pid (env : Env) (pid : Nat) (m : WindowsKillMethod) :
    safe_events env.currentPid (kill_process_by_pid env pid m).2 := by
  unfold kill_process_by_pid
  cases hv : validate_pid_safety env.currentPid pid with
  | error e => exact safe_events_nil _
  | ok u =>
    cases u
    simp only []
    split
    · intro ev hev p hp
      have hpid := events_pid_method env pid m ev hev
      rw [hpid] at hp
      injection hp with hp
      subst hp
      exact validate_pid_safety_ok_then _ _ hv
    · exact safe_events_nil _

/-- The name loop's trace is safe. -/
theorem safe_kill_name_loop (env : Env) (name : String)
    (m : WindowsKillMethod) (l : List Nat) :
    safe_events env.currentPid (kill_name_loop env name m l).2.2 := by
  intro ev hev p hp
  rw [kill_name_loop_events] at hev
  rw [List.mem_flatten] at hev
  obtain ⟨l2, hl2, hev⟩ := hev
  rw [List.mem_map] at hl2
  obtain ⟨pid, _, rfl⟩ := hl2
  exact safe_kill_by_pid env pid m ev hev p hp

/-- The trace of `kill_process_by_name` is empty or is one run of the name
loop. -/
theorem kill_by_name_events (env : Env) (t : String) (m : WindowsKillMethod)
    (o : KillOptions) :
    (kill_process_by_name env t m o).2 = []
    ∨ ∃ l, (kill_process_by_name env t m o).2
        = (kill_name_loop env t m l).2.2 := by
  unfold kill_process_by_name
  cases hf : find_processes_by_name env.snap1 t with
  | error e => exact Or.inl rfl
  | ok pids =>
    cases pids with
    | nil => exact Or.inl rfl
    | cons q qs =>
      refine Or.inr ⟨if o.all_processes then q :: qs else [q], ?_⟩
      simp only []
      rcases hl : kill_name_loop env t m (if o.all_processes then q :: qs else [q])
        with ⟨errs, succ, evs⟩
      split <;> [skip; rfl]
      split <;> rfl

/-- `kill_process_by_name`'s trace is safe. -/
theorem safe_kill_by_name (env : Env) (t : String) (m : WindowsKillMethod)
    (o : KillOptions) :
    safe_events env.currentPid (kill_process_by_name env t m o).2 := by
  rcases kill_by_name_events env t m o with h | ⟨l, h⟩ <;> rw [h]
  · exact safe_events_nil _
  · exact safe_kill_name_loop env t m l

/-- A single target attempt's trace is safe. -/
theorem safe_attempt_target (env : Env) (m : WindowsKillMethod)
    (o : KillOptions) (t : String) :
    safe_events env.currentPid (attempt_target env m o t).2 := by
  unfold attempt_target
  split
  · cases rust_parse_u32 t with
    | some pid => exact safe_kill_by_pid env pid m
    | none => exact safe_events_nil _
  · exact safe_kill_by_name env t m o

/-- One step of the per-target loop: the trace is empty (the `u32` overflow
abort) or the head attempt's trace followed by the tail's trace. -/
theorem collect_results_events (env : Env) (m : WindowsKillMethod)
    (o : KillOptions) (t : String) (rest : List String) :
    (collect_results env m o (t :: rest)).2 = []
    ∨ (collect_results env m o (t :: rest)).2
        = (attempt_target env m o t).2 ++ (collect_results env m o rest).2 := by
  simp only [collect_results, attempt_target]
  cases hd : str_all_digits t with
  | true =>
    simp only [if_true]
    cases hq : rust_parse_u32 t with
    | none => exact Or.inl rfl
    | some pid =>
      refine Or.inr ?_
      rcases hk : kill_process_by_pid env pid m with ⟨r, evk⟩
      rcases hc : collect_results env m o rest with ⟨rs, evs⟩
      cases rs <;> rfl
  | false =>
    simp only [Bool.false_eq_true, if_false]
    refine Or.inr ?_
    rcases hk : kill_process_by_name env t m o with ⟨r, evk⟩
    rcases hc : collect_results env m o rest with ⟨rs, evs⟩
    cases rs <;> rfl

/-- The per-target loop's trace is safe. -/
theorem safe_collect_results (env : Env) (m : WindowsKillMethod)
    (o : KillOptions) (ts : List String) :
    safe_events env.currentPid (collect_results env m o ts).2 := by
  induction ts with
  | nil => exact safe_events_nil _
  | cons t rest ih =>
    rcases collect_results_events env m o t rest with h | h <;> rw [h]
    · exact safe_events_nil _
    · exact safe_events_append _ _ _ (safe_attempt_target env m o t) ih

/-- One step of the timeout loop: a safety rejection contributes no event,
a passed check contributes the method's events for that pid. -/
theorem timeout_loop_events (env : Env) (m : WindowsKillMethod) (pid : Nat)
    (tname : String) (rest : List (Nat × String)) :
    (timeout_kill_loop env m ((pid, tname) :: rest)).2.2
        = (timeout_kill_loop env m rest).2.2
    ∨ (validate_pid_safety env.currentPid pid = .ok ()
      ∧ (timeout_kill_loop env m ((pid, tname) :: rest)).2.2
          = (kill_process_with_method env pid m).2
            ++ (timeout_kill_loop env m rest).2.2) := by
  simp only [timeout_kill_loop]
  cases hv : validate_pid_safety env.currentPid pid with
  | error e =>
    rcases hl : timeout_kill_loop env m rest with ⟨errs, succ, evs⟩
    exact Or.inl rfl
  | ok u =>
    cases u
    refine Or.inr ⟨rfl, ?_⟩
    rcases hk : kill_process_with_method env pid m with ⟨r, evk⟩
    rcases hl : timeout_kill_loop env m rest with ⟨errs, succ, evs⟩
    cases r <;> rfl

/-- The timeout loop re-validates before each kill, so its trace is safe. -/
theorem safe_timeout_loop (env : Env) (m : WindowsKillMethod)
    (l : List (Nat × String)) :
    safe_events env.currentPid (timeout_kill_loop env m l).2.2 := by
  induction l with
  | nil => exact safe_events_nil _
  | cons pr rest ih =>
    obtain ⟨pid, tname⟩ := pr
    rcases timeout_loop_events env m pid tname rest with h | ⟨hv, h⟩ <;> rw [h]
    · exact ih
    · refine safe_events_append _ _ _ ?_ ih
      intro ev hev p hp
      have hpid := events_pid_method env pid m ev hev
      rw [hpid] at hp
      injection hp with hp
      subst hp
      exact validate_pid_safety_ok_then _ _ hv

/-- The timeout phase's trace: nothing, a bare sleep, or a sleep followed by
one run of the timeout loop over the still-alive collected pids. -/
theorem handle_timeout_events (env : Env) (results : List (String × Res))
    (ms : Nat) (o : KillOptions) :
    (handle_timeout_kill env results ms o).2 = []
    ∨ (handle_timeout_kill env results ms o).2 = [Event.sleep ms]
    ∨ ∃ tm, (handle_timeout_kill env results ms o).2
        = Event.sleep ms :: (timeout_kill_loop env tm
            ((collect_target_pids env o results).filter
              fun p => process_exists env.alive2 p.1)).2.2 := by
  unfold handle_timeout_kill
  cases hts : o.timeout_signal with
  | none => exact Or.inl rfl
  | some ts =>
    simp only []
    cases htm : signal_to_windows_method ts with
    | error e => exact Or.inl rfl
    | ok tm =>
      simp only []
      split
      · exact Or.inl rfl
      · split
        · exact Or.inr (Or.inl rfl)
        · refine Or.inr (Or.inr ⟨tm, ?_⟩)
          rcases hl : timeout_kill_loop env tm
              ((collect_target_pids env o results).filter
                fun p => process_exists env.alive2 p.1)
            with ⟨errs, succ, evs⟩
          rfl

/-- The whole timeout phase's trace is safe. -/
theorem safe_handle_timeout (env : Env) (results : List (String × Res))
    (ms : Nat) (o : KillOptions) :
    safe_events env.currentPid (handle_timeout_kill env results ms o).2 := by
  rcases handle_timeout_events env results ms o with h | h | ⟨tm, h⟩ <;> rw [h]
  · exact safe_events_nil _
  · intro ev hev p hp
    simp at hev
    subst hev
    simp [eventPid] at hp
  · intro ev hev p hp
    rcases List.mem_cons.mp hev with hev | hev
    · subst hev
      simp [eventPid] at hp
    · exact safe_timeout_loop env tm _ ev hev p hp

/-- The trace of `handle_kill_main`: the initial pass alone, or the initial
pass followed by a timeout phase. -/
theorem handle_kill_main_events (env : Env) (o : KillOptions)
    (m : WindowsKillMethod) :
    (handle_kill_main env o m).2 = (collect_results env m o o.targets).2
    ∨ ∃ results ms, (handle_kill_main env o m).2
        = (collect_results env m o o.targets).2
          ++ (handle_timeout_kill env results ms o).2 := by
  unfold handle_kill_main
  rcases hc : collect_results env m o o.targets with ⟨rs, evc⟩
  cases rs with
  | error e => exact Or.inl rfl
  | ok results =>
    cases hms : o.timeout_ms with
    | none => exact Or.inl rfl
    | some ms =>
      refine Or.inr ⟨results, ms, ?_⟩
      simp only []
      rcases hht : handle_timeout_kill env results ms o with ⟨rt, evt⟩
      cases rt <;> rfl

/-- `handle_kill`'s whole trace — initial pass and timeout escalation — is
safe. -/
theorem safe_handle_kill (env : Env) (o : KillOptions) :
    safe_events env.currentPid (handle_kill env o).2 := by
  unfold handle_kill
  split
  · exact safe_events_nil _
  · split
    · exact safe_events_nil _
    · rename_i m hm
      rcases handle_kill_main_events env o m with h | ⟨results, ms, h⟩ <;> rw [h]
      · exact safe_collect_results env m o o.targets
      · exact safe_events_append _ _ _ (safe_collect_results env m o o.targets)
          (safe_handle_timeout env results ms o)

/-- C4: the Safety Guard is consulted before every termination attempt.  A
pid on the deny-list or equal to the caller's own pid is rejected with no
event; and across a whole `handle_kill` run — the initial pass and every
timeout-escalation attempt — no emitted event ever targets a deny-listed
pid or the caller's own pid. -/
theorem safety_guard_rejects_protected_and_self :
    (∀ (env : Env) (pid : Nat) (method : WindowsKillMethod),
      (PROTECTED_PIDS.contains pid || pid == env.currentPid) = true →
      resIsOk (kill_process_by_pid env pid method).1 = false
      ∧ (kill_process_by_pid env pid method).2 = [])
    ∧ ∀ (env : Env) (options : KillOptions),
        safe_events env.currentPid (handle_kill env options).2 := by
  constructor
  · intro env pid method h
    unfold kill_process_by_pid
    cases hv : validate_pid_safety env.currentPid pid with
    | error e => exact ⟨rfl, rfl⟩
    | ok u =>
      cases u
      obtain ⟨h1, h2⟩ := validate_pid_safety_ok_then _ _ hv
      rw [h1, h2] at h
      simp at h
  · exact safe_handle_kill

/-- Witness for C4: the shell (pid 77) cannot kill itself, and the run that
terminates pid 100 emits only events aimed at a pid that is neither
deny-listed nor pid 77. -/
theorem safety_guard_rejects_protected_and_self_witness :
    (resIsOk (kill_process_by_pid
        { baseEnv with currentPid := 77, alive1 := [100] } 77 .ForceTerminate).1
        = false
      ∧ (kill_process_by_pid
        { baseEnv with currentPid := 77, alive1 := [100] } 77 .ForceTerminate).2
        = [])
    ∧ (PROTECTED_PIDS.contains 100 = false ∧ (100 == 77) = false) :=
  ⟨safety_guard_rejects_protected_and_self.1
      { baseEnv with currentPid := 77, alive1 := [100] } 77 .ForceTerminate
      (by decide),
   safety_guard_rejects_protected_and_self.2
      { baseEnv with currentPid := 77, alive1 := [100] }
      { targets := ["100"] } (Event.terminate 100) (by decide) 100 rfl⟩

/-- An operating system in which `foo.exe` (pid 50) exists during the
initial pass but the name no longer matches anything in the re-resolution
snapshot. -/
def envVanish : Env :=
  { baseEnv with
    snap1 := .ok [⟨"foo.exe", 50⟩]
    alive1 := [50] }

/-- Counterexample to C6: `kill --timeout 1000 9 foo` succeeds on its
initial attempt (the `terminate 50` event, overall result `Ok`), yet the
controller never enters the waiting state — the trace contains no `sleep`
event — because re-resolving `foo` against the second snapshot finds no
pid. -/
theorem timeout_escalation_counterexample :
    execute envVanish ["--timeout", "1000", "9", "foo"]
      = (.ok (), [Event.terminate 50]) := by
  decide

/-- The escalation controller considers exactly the initially successful
targets: failed results contribute nothing to the collected pids. -/
theorem collect_target_pids_ok_only (env : Env) (o : KillOptions)
    (results : List (String × Res)) :
    collect_target_pids env o results
      = collect_target_pids env o (results.filter fun r => resIsOk r.2) := by
  induction results with
  | nil => rfl
  | cons pr rest ih =>
    obtain ⟨target, r⟩ := pr
    cases hr : resIsOk r with
    | true =>
      simp only [collect_target_pids, List.filter, hr, if_true, ih]
    | false =>
      simp only [collect_target_pids, List.filter, hr, Bool.false_eq_true,
        if_false, List.nil_append, ih]

/-- Every event of the timeout loop names the pid of one of its input
pairs. -/
theorem timeout_loop_events_mem (env : Env) (m : WindowsKillMethod) :
    ∀ l, ∀ ev ∈ (timeout_kill_loop env m l).2.2,
      ∃ pr, pr ∈ l ∧ eventPid ev = some pr.1 := by
  intro l
  induction l with
  | nil =>
    intro ev hev
    simp [timeout_kill_loop] at hev
  | cons pr rest ih =>
    obtain ⟨pid, tname⟩ := pr
    intro ev hev
    rcases timeout_loop_events env m pid tname rest with h | ⟨hv, h⟩ <;>
      rw [h] at hev
    · obtain ⟨pr2, hm, hp⟩ := ih ev hev
      exact ⟨pr2, List.mem_cons_of_mem _ hm, hp⟩
    · rcases List.mem_append.mp hev with hm | hm
      · exact ⟨(pid, tname), List.mem_cons_self _ _,
          events_pid_method env pid m ev hm⟩
      · obtain ⟨pr2, hm2, hp⟩ := ih ev hm
        exact ⟨pr2, List.mem_cons_of_mem _ hm2, hp⟩

/-- C6 (amended): when `timeout_ms` is set, the escalation controller
considers only initially successful targets (digit targets re-parsed, name
targets re-resolved against a second snapshot); it enters the waiting state
only when this collection is nonempty — if re-resolution leaves nothing the
controller returns success immediately with no wait — and when it waits it
blocks for the full `timeout_ms` before anything else happens and sends the
timeout strategy only to collected pids still alive after the wait. -/
theorem timeout_escalation_spec :
    (∀ (env : Env) (o : KillOptions) (results : List (String × Res)),
      collect_target_pids env o results
        = collect_target_pids env o (results.filter fun r => resIsOk r.2))
    ∧ (∀ (env : Env) (results : List (String × Res)) (ms : Nat)
        (o : KillOptions) (ts : String) (tm : WindowsKillMethod),
        o.timeout_signal = some ts →
        signal_to_windows_method ts = .ok tm →
        collect_target_pids env o results = [] →
        handle_timeout_kill env results ms o = (.ok (), []))
    ∧ (∀ (env : Env) (results : List (String × Res)) (ms : Nat)
        (o : KillOptions) (ts : String) (tm : WindowsKillMethod),
        o.timeout_signal = some ts →
        signal_to_windows_method ts = .ok tm →
        collect_target_pids env o results ≠ [] →
        (handle_timeout_kill env results ms o).2.head?
          = some (Event.sleep ms))
    ∧ (∀ (env : Env) (results : List (String × Res)) (ms : Nat)
        (o : KillOptions),
        ∀ ev ∈ (handle_timeout_kill env results ms o).2, ∀ p,
          eventPid ev = some p →
          process_exists env.alive2 p = true
          ∧ p ∈ (collect_target_pids env o results).map Prod.fst) := by
  refine ⟨collect_target_pids_ok_only, ?_, ?_, ?_⟩
  · intro env results ms o ts tm hts htm hempty
    unfold handle_timeout_kill
    rw [hts]
    simp only []
    rw [htm]
    simp only []
    rw [hempty]
    rfl
  · intro env results ms o ts tm hts htm hne
    unfold handle_timeout_kill
    rw [hts]
    simp only []
    rw [htm]
    simp only []
    rw [if_neg (by simpa [List.isEmpty_iff] using hne)]
    split
    · rfl
    · rcases hl : timeout_kill_loop env tm
          ((collect_target_pids env o results).filter
            fun p => process_exists env.alive2 p.1)
        with ⟨errs, succ, evs⟩
      rfl
  · intro env results ms o ev hev p hp
    rcases handle_timeout_events env results ms o with h | h | ⟨tm, h⟩ <;>
      rw [h] at hev
    · simp at hev
    · simp at hev
      subst hev
      simp [eventPid] at hp
    · rcases List.mem_cons.mp hev with hev | hev
      · subst hev
        simp [eventPid] at hp
      · obtain ⟨pr, hm, hp2⟩ := timeout_loop_events_mem env tm _ ev hev
        rw [List.mem_filter] at hm
        obtain ⟨hmem, halive⟩ := hm
        rw [hp2] at hp
        injection hp with hp
        subst hp
        exact ⟨halive, List.mem_map.mpr ⟨pr, hmem, rfl⟩⟩

/-- Witness for the amended C6: with pid 50 collected and still alive, the
controller's first action is the full sleep. -/
theorem timeout_escalation_spec_witness :
    (handle_timeout_kill
        { baseEnv with alive1 := [50], alive2 := [50] }
        [("50", Except.ok ())] 1000
        { timeout_ms := some 1000, timeout_signal := some "9"
          targets := ["50"] }).2.head? = some (Event.sleep 1000) :=
  timeout_escalation_spec.2.2.1
    { baseEnv with alive1 := [50], alive2 := [50] }
    [("50", Except.ok ())] 1000
    { timeout_ms := some 1000, timeout_signal := some "9"
      targets := ["50"] }
    "9" .ForceTerminate rfl (by decide) (by decide)

end Winix
